import Mathlib

/-!
Shallow embedding of the bebop drone client (package `client`, file
`client.go`) for checking its natural-language specification.

Go machine values are modelled over `Nat`/`Int`: bytes are `Nat` values in
`[0, 256)`, `uint64` fields carry an explicit `% 2 ^ 64` where Go overflow
semantics matter, and Go's `uint16`/`byte` casts are explicit `% 65536` /
`% 256`.  Go slices are modelled with their backing array and length so
that capacity-dependent slicing (`buf[a:b]` is legal whenever
`b <= cap(buf)`) is faithful, and run-time panics (index out of range,
slice bounds out of range, assignment to a nil map) surface as
`Except.error` values.
-/

namespace Bebop

/-- Run-time failure of a Go operation (a panic). -/
inductive GoPanic where
  | indexOutOfRange
  | sliceBoundsOutOfRange
  | nilMapWrite
deriving DecidableEq, Repr

/-- A Go slice: the backing array from the slice start through its capacity,
together with the slice length.  `backing.length` plays the role of `cap`. -/
structure GoSlice where
  backing : List Nat
  len : Nat
deriving DecidableEq, Repr

/-- Go indexing `s[i]`: legal iff `i < len(s)`. -/
def GoSlice.get (s : GoSlice) (i : Nat) : Except GoPanic Nat :=
  if i < s.len then .ok (s.backing.getD i 0) else .error .indexOutOfRange

/-- Go slicing `s[a:b]`: legal iff `a <= b` and `b <= cap(s)`; the result
shares the backing array. -/
def GoSlice.slice (s : GoSlice) (a b : Nat) : Except GoPanic GoSlice :=
  if a ≤ b ∧ b ≤ s.backing.length then .ok ⟨s.backing.drop a, b - a⟩
  else .error .sliceBoundsOutOfRange

/-- The bytes a Go slice holds (its first `len` backing bytes). -/
def GoSlice.toList (s : GoSlice) : List Nat :=
  s.backing.take s.len

/-- Little-endian serialization of a `uint32` (as written by
`binary.Write(_, binary.LittleEndian, uint32 _)`). -/
def u32LE (n : Nat) : List Nat :=
  [n % 256, n / 256 % 256, n / 65536 % 256, n / 16777216 % 256]

/-- Little-endian serialization of a `uint16`. -/
def u16LE (n : Nat) : List Nat :=
  [n % 256, n / 256 % 256]

/-- Little-endian serialization of a `uint64`. -/
def u64LE (n : Nat) : List Nat :=
  [n % 256, n / 256 % 256, n / 65536 % 256, n / 16777216 % 256,
   n / 4294967296 % 256, n / 1099511627776 % 256,
   n / 281474976710656 % 256, n / 72057594037927936 % 256]

/-- Little-endian `uint32` read (as by `binary.Read` over a 4-byte slice). -/
def readU32LE (l : List Nat) : Nat :=
  l.getD 0 0 + 256 * l.getD 1 0 + 65536 * l.getD 2 0 + 16777216 * l.getD 3 0

/-- Little-endian `uint16` read over a 2-byte slice. -/
def readU16LE (l : List Nat) : Nat :=
  l.getD 0 0 + 256 * l.getD 1 0

/-- `validatePitch` from client.go: clamp a Go `int` into `[0, 100]`. -/
def validatePitch (val : Int) : Int :=
  if val > 100 then 100
  else if val < 0 then 0
  else val

/-- `Pcmd` from client.go (the piloting command state).  The Go `Psi` field
is a `float32` that this code only ever sets to the exact value `0`, so it
is modelled as an `Int`. -/
structure Pcmd where
  Flag : Int
  Roll : Int
  Pitch : Int
  Yaw : Int
  Gaz : Int
  Psi : Int
deriving DecidableEq, Repr

/-- The zero `Pcmd` installed by `New()`. -/
def initPcmd : Pcmd :=
  { Flag := 0, Roll := 0, Pitch := 0, Yaw := 0, Gaz := 0, Psi := 0 }

/-- `(*Bebop).Up` restricted to its effect on the `Pcmd` field. -/
def Up (p : Pcmd) (val : Int) : Pcmd :=
  { p with Flag := 1, Gaz := validatePitch val }

/-- `(*Bebop).Down` restricted to its effect on the `Pcmd` field. -/
def Down (p : Pcmd) (val : Int) : Pcmd :=
  { p with Flag := 1, Gaz := validatePitch val * (-1) }

/-- `(*Bebop).Forward` restricted to its effect on the `Pcmd` field. -/
def Forward (p : Pcmd) (val : Int) : Pcmd :=
  { p with Flag := 1, Pitch := validatePitch val }

/-- `(*Bebop).Backward` restricted to its effect on the `Pcmd` field. -/
def Backward (p : Pcmd) (val : Int) : Pcmd :=
  { p with Flag := 1, Pitch := validatePitch val * (-1) }

/-- `(*Bebop).Right` restricted to its effect on the `Pcmd` field. -/
def Right (p : Pcmd) (val : Int) : Pcmd :=
  { p with Flag := 1, Roll := validatePitch val }

/-- `(*Bebop).Left` restricted to its effect on the `Pcmd` field. -/
def Left (p : Pcmd) (val : Int) : Pcmd :=
  { p with Flag := 1, Roll := validatePitch val * (-1) }

/-- `(*Bebop).Clockwise` restricted to its effect on the `Pcmd` field. -/
def Clockwise (p : Pcmd) (val : Int) : Pcmd :=
  { p with Flag := 1, Yaw := validatePitch val }

/-- `(*Bebop).CounterClockwise` restricted to its effect on the `Pcmd`
field. -/
def CounterClockwise (p : Pcmd) (val : Int) : Pcmd :=
  { p with Flag := 1, Yaw := validatePitch val * (-1) }

/-- `(*Bebop).Stop`: reset the whole command state to zero. -/
def Stop (_p : Pcmd) : Pcmd :=
  { Flag := 0, Roll := 0, Pitch := 0, Yaw := 0, Gaz := 0, Psi := 0 }

/-- The Go `map[byte]byte` held by the `networkFrameGenerator` closure:
`none` marks an absent key. -/
abbrev SeqMap := Nat → Option Nat

/-- The empty sequence map (`make(map[byte]byte)`). -/
def emptySeqMap : SeqMap := fun _ => none

/-- The per-channel sequence step inside the closure returned by
`networkFrameGenerator`: install `0` on first use of the id, then
increment the stored `byte` (Go `byte` addition wraps at 256; the source's
`if seq[id] > 255` check is kept although a `byte` can never exceed 255).
Returns the value written into the frame together with the updated map. -/
def seqNext (m : SeqMap) (id : Nat) : Nat × SeqMap :=
  let m1 : SeqMap :=
    match m id with
    | none => fun k => if k = id then some 0 else m k
    | some _ => m
  let v1 := ((m1 id).getD 0 + 1) % 256
  let v2 := if v1 > 255 then 0 else v1
  (v2, fun k => if k = id then some v2 else m1 k)

/-- Process a list of `next(id)` calls against a sequence map. -/
def runSeq : SeqMap → List Nat → SeqMap
  | m, [] => m
  | m, id :: ids => runSeq (seqNext m id).2 ids

/-- The closure returned by `networkFrameGenerator`, applied to its captured
sequence map: write `type(1) + id(1) + seq(1) + size(4, little-endian,
= len(cmd) + 7) + cmd` and return the bytes with the updated map.
Parameters `frameType` and `id` are Go `byte` values. -/
def networkFrameGenerator (m : SeqMap) (cmd : List Nat) (frameType id : Nat) :
    List Nat × SeqMap :=
  let s := seqNext m id
  (frameType :: id :: s.1 :: (u32LE (cmd.length + 7) ++ cmd), s.2)

/-- `NetworkFrame` from client.go.  `Data` keeps Go slice structure because
`buf[7:frame.Size]` inherits the backing array (and capacity) of the
receive buffer. -/
structure NetworkFrame where
  Type' : Nat
  Seq : Nat
  ID : Nat
  Size : Nat
  Data : GoSlice
deriving DecidableEq, Repr

/-- `NewNetworkFrame` from client.go: reads `buf[0]`, `buf[1]`, `buf[2]`,
parses the little-endian `uint32` size from `buf[3:7]`, and takes
`Data = buf[7:size]`.  Performs no validation of its own: every failure
mode is a Go panic from indexing or slicing. -/
def NewNetworkFrame (buf : GoSlice) : Except GoPanic NetworkFrame := do
  let t ← buf.get 0
  let i ← buf.get 1
  let s ← buf.get 2
  let szslice ← buf.slice 3 7
  let size := readU32LE szslice.toList
  let data ← buf.slice 7 size
  .ok { Type' := t, ID := i, Seq := s, Size := size, Data := data }

/-- `ARStreamFrame` from client.go: one video fragment, as parsed by
`NewARStreamFrame`. -/
structure ARStreamFrame where
  FrameNumber : Nat
  FrameFlags : Nat
  FragmentNumber : Nat
  FragmentsPerFrame : Nat
  Frame : List Nat
deriving DecidableEq, Repr

/-- `NewARStreamFrame` from client.go: `FrameFlags = buf[2]`,
`FragmentNumber = buf[3]`, `FragmentsPerFrame = buf[4]`, the frame number
is the little-endian `uint16` at `buf[0:2]`, and the payload is `buf[5:]`. -/
def NewARStreamFrame (buf : GoSlice) : Except GoPanic ARStreamFrame := do
  let fl ← buf.get 2
  let fragNum ← buf.get 3
  let perFrame ← buf.get 4
  let s02 ← buf.slice 0 2
  let number := readU16LE s02.toList
  let payload ← buf.slice 5 buf.len
  .ok { FrameNumber := number, FrameFlags := fl, FragmentNumber := fragNum,
        FragmentsPerFrame := perFrame, Frame := payload.toList }

/-- `ARStreamACK` from client.go. `HighPacketsAck` and `LowPacketsAck` are
Go `uint64` bitfields. -/
structure ARStreamACK where
  FrameNumber : Nat
  HighPacketsAck : Nat
  LowPacketsAck : Nat
deriving DecidableEq, Repr

/-- The Go `map[int][]byte` of received fragments, as an association list
with distinct keys (`Go` map iteration order is irrelevant: the code only
ever looks keys up and takes `len`). -/
abbrev Frags := List (Nat × List Nat)

/-- Go map lookup `m[k]` for `map[int][]byte`: a missing key yields the
zero value (the nil slice, of length 0). -/
def fragsGet (m : Frags) (k : Nat) : List Nat :=
  match m.find? (fun p => p.1 == k) with
  | some p => p.2
  | none => []

/-- Go map write `m[k] = v`: replace the existing entry or add a new one. -/
def fragsPut (m : Frags) (k : Nat) (v : List Nat) : Frags :=
  if (m.find? (fun p => p.1 == k)).isSome then
    m.map (fun p => if p.1 == k then (k, v) else p)
  else
    m ++ [(k, v)]

/-- `tmpFrame` from client.go.  `fragments` is `none` while the Go map is
nil (the `New()` zero value); writing to it then panics. -/
structure TmpFrame where
  arstreamACK : ARStreamACK
  fragments : Option Frags
  frame : List Nat
  waitForIframe : Bool
  frameFlags : Nat
deriving DecidableEq, Repr

/-- `len` of the possibly-nil fragment map. -/
def fragsLen (m : Option Frags) : Nat :=
  match m with
  | none => 0
  | some l => l.length

/-- The reassembly loop inside `createARStreamACK`:
`for i := 0; i < len(fragments); i++`, appending each fragment to the
accumulated frame, aborting with `skip = true` at the first index `i`
whose entry is missing or empty.  `k` is the number of indices left to
visit, `i` the next index. -/
def assembleAux (frags : Frags) : Nat → Nat → List Nat → Bool × List Nat
  | _, 0, acc => (false, acc)
  | i, k + 1, acc =>
    let f := fragsGet frags i
    if f.length = 0 then (true, acc)
    else assembleAux frags (i + 1) k (acc ++ f)

/-- The finalize phase of `createARStreamACK` from client.go (the body of
`if frame.FrameNumber != b.tmpFrame.arstreamACK.FrameNumber`): when a frame
is in progress, run the loss check, decide emission from the in-progress
`frameFlags` and `waitForIframe`, scan fragment indices
`0 .. len(fragments) - 1` for completeness, then reset the scratch state
for the new frame.  Returns the updated state and the frame offered to the
video channel, if any (the Go `select` offers it without blocking). -/
def arstreamFinalize (t : TmpFrame) (frame : ARStreamFrame) :
    TmpFrame × Option (List Nat) :=
  if frame.FrameNumber ≠ t.arstreamACK.FrameNumber then
    let inner : TmpFrame × Option (List Nat) :=
      if 0 < fragsLen t.fragments then
        let frags := t.fragments.getD []
        let w1 : Bool :=
          if frame.FrameNumber ≠ t.arstreamACK.FrameNumber + 1 then true
          else t.waitForIframe
        let we : Bool × Bool :=
          if t.frameFlags = 1 then (false, true)
          else if w1 = false then (w1, true)
          else (w1, false)
        if we.2 then
          let sa := assembleAux frags 0 frags.length t.frame
          ({ t with waitForIframe := we.1, frame := sa.2 },
           if sa.1 = false then some sa.2 else none)
        else ({ t with waitForIframe := we.1 }, none)
      else (t, none)
    ({ inner.1 with
          fragments := some [],
          frame := [],
          arstreamACK := { inner.1.arstreamACK with FrameNumber := frame.FrameNumber },
          frameFlags := frame.FrameFlags },
      inner.2)
  else (t, none)

/-- `createARStreamACK` from client.go, restricted to its state transition:
the finalize phase above, then storing the new fragment (panicking if the
map is still nil, as it is right after `New()`) and setting its bit in the
ack bitfields (a Go `uint64` shift by 64 or more yields 0).  Returns the
new state, the frame offered to the video channel (if any), and the
`ARStreamACK` value the returned ack packet serializes. -/
def createARStreamACK (t : TmpFrame) (frame : ARStreamFrame) :
    Except GoPanic (TmpFrame × Option (List Nat) × ARStreamACK) :=
  match (arstreamFinalize t frame).1.fragments with
  | none => .error .nilMapWrite
  | some frags =>
    let t3 := (arstreamFinalize t frame).1
    let frags2 := fragsPut frags frame.FragmentNumber frame.Frame
    let ack2 :=
      if frame.FragmentNumber < 64 then
        { t3.arstreamACK with
            LowPacketsAck := t3.arstreamACK.LowPacketsAck ||| (1 <<< frame.FragmentNumber) }
      else
        { t3.arstreamACK with
            HighPacketsAck :=
              t3.arstreamACK.HighPacketsAck ||| ((1 <<< (frame.FragmentNumber - 64)) % 2 ^ 64) }
    let t4 := { t3 with fragments := some frags2, arstreamACK := ack2 }
    .ok (t4, (arstreamFinalize t frame).2, t4.arstreamACK)

/-- The `tmpFrame` zero value installed by `New()`: frame number 0, empty
bitfields, nil fragment map, empty frame, `waitForIframe = false`. -/
def initTmpFrame : TmpFrame :=
  { arstreamACK := { FrameNumber := 0, HighPacketsAck := 0, LowPacketsAck := 0 },
    fragments := none, frame := [], waitForIframe := false, frameFlags := 0 }

/-- Feed a list of fragments through `createARStreamACK`, collecting the
frames offered to the video channel and the ack values returned. -/
def runARStream : TmpFrame → List ARStreamFrame →
    Except GoPanic (TmpFrame × List (List Nat) × List ARStreamACK)
  | t, [] => .ok (t, [], [])
  | t, f :: fs => do
    let r ← createARStreamACK t f
    let rest ← runARStream r.1 fs
    .ok (rest.1,
         (match r.2.1 with | some e => [e] | none => []) ++ rest.2.1,
         r.2.2 :: rest.2.2)

/-- The frames a fragment list makes the reassembler offer to the video
channel, starting from a given state. -/
def runEmits (t : TmpFrame) (fs : List ARStreamFrame) :
    Except GoPanic (List (List Nat)) :=
  (runARStream t fs).map (fun r => r.2.1)

/-- The ack values a fragment list makes the reassembler return, starting
from a given state. -/
def runAcks (t : TmpFrame) (fs : List ARStreamFrame) :
    Except GoPanic (List ARStreamACK) :=
  (runARStream t fs).map (fun r => r.2.2)

/-- The reassembler state after a fragment list, starting from a given
state. -/
def runFinal (t : TmpFrame) (fs : List ARStreamFrame) :
    Except GoPanic TmpFrame :=
  (runARStream t fs).map (fun r => r.1)

/-- Modelled from the spec: protocol constant declared outside the provided
sources (the repository's constants file is not under src/).  Frame type
for acknowledgments, one of the published ARNetworkAL frame-type codes. -/
def ARNETWORKAL_FRAME_TYPE_ACK : Nat := 1

/-- Modelled from the spec: protocol constant declared outside the provided
sources.  Frame type for plain data. -/
def ARNETWORKAL_FRAME_TYPE_DATA : Nat := 2

/-- Modelled from the spec: protocol constant declared outside the provided
sources.  Frame type for low-latency data (the video stream). -/
def ARNETWORKAL_FRAME_TYPE_DATA_LOW_LATENCY : Nat := 3

/-- Modelled from the spec: protocol constant declared outside the provided
sources.  Frame type for data requiring acknowledgment. -/
def ARNETWORKAL_FRAME_TYPE_DATA_WITH_ACK : Nat := 4

/-- Modelled from the spec: protocol constant declared outside the provided
sources.  The spec's `maxChannelId`; the published ARNetworkAL default id
maximum for wifi networks. -/
def ARNETWORKAL_MANAGER_DEFAULT_ID_MAX : Nat := 256

/-- Modelled from the spec: protocol constant declared outside the provided
sources.  The keepalive ping channel. -/
def ARNETWORK_MANAGER_INTERNAL_BUFFER_ID_PING : Nat := 0

/-- Modelled from the spec: protocol constant declared outside the provided
sources.  The keepalive pong channel. -/
def ARNETWORK_MANAGER_INTERNAL_BUFFER_ID_PONG : Nat := 1

/-- Modelled from the spec: protocol constant declared outside the provided
sources.  The inbound video-data channel id. -/
def BD_NET_DC_VIDEO_DATA_ID : Nat := 125

/-- Modelled from the spec: protocol constant declared outside the provided
sources.  The outbound video-ack channel id. -/
def BD_NET_CD_VIDEO_ACK_ID : Nat := 13

/-- Modelled from the spec: command constant declared outside the provided
sources, used only by the debug block at the top of `packetReceiver`.  The
published Parrot PilotingState enumeration (the same enumeration whose
`moveToChanged` has id 12, as the source's own comment records) gives
`PositionChanged = 4` — the same value as
`ARNETWORKAL_FRAME_TYPE_DATA_WITH_ACK`, so the debug block runs on every
ack-required frame. -/
def ARCOMMANDS_ID_ARDRONE3_PILOTINGSTATE_CMD_POSITIONCHANGED : Nat := 4

/-- `createAck` from client.go: wrap the single byte `uint8(frame.Seq)` in
an ack-type frame on channel `byte(uint16(frame.ID) + idMax/2)`. -/
def createAck (m : SeqMap) (frame : NetworkFrame) : List Nat × SeqMap :=
  networkFrameGenerator m [frame.Seq % 256] ARNETWORKAL_FRAME_TYPE_ACK
    ((frame.ID % 65536 + ARNETWORKAL_MANAGER_DEFAULT_ID_MAX / 2) % 65536 % 256)

/-- `createPong` from client.go: echo the ping payload on the pong channel. -/
def createPong (m : SeqMap) (frame : NetworkFrame) : List Nat × SeqMap :=
  networkFrameGenerator m frame.Data.toList ARNETWORKAL_FRAME_TYPE_DATA
    ARNETWORK_MANAGER_INTERNAL_BUFFER_ID_PONG

/-- The serialization tail of `createARStreamACK`: the ack value written as
`uint16(frameNumber)` + `uint64(high)` + `uint64(low)`, all little-endian,
wrapped through `networkFrameGenerator` on the video-ack channel. -/
def createARStreamACKBytes (m : SeqMap) (t : TmpFrame) (frame : ARStreamFrame) :
    Except GoPanic (SeqMap × TmpFrame × Option (List Nat) × List Nat) := do
  let r ← createARStreamACK t frame
  let ser := u16LE (r.2.2.FrameNumber % 65536)
    ++ u64LE (r.2.2.HighPacketsAck % 2 ^ 64)
    ++ u64LE (r.2.2.LowPacketsAck % 2 ^ 64)
  let w := networkFrameGenerator m ser ARNETWORKAL_FRAME_TYPE_DATA BD_NET_CD_VIDEO_ACK_ID
  .ok (w.2, r.1, r.2.1, w.1)

/-- The mutable state of a `Bebop` value that `packetReceiver` touches: the
sequence map captured by `networkFrameGenerator` and the video `tmpFrame`. -/
structure BebopState where
  seq : SeqMap
  tmp : TmpFrame

/-- The state installed by `New()`. -/
def initBebopState : BebopState :=
  { seq := emptySeqMap, tmp := initTmpFrame }

/-- `packetReceiver` from client.go, after decoding: the debug block (whose
only effects beyond printing are its indexing and slicing panics), the
ack branch for `DATA_WITH_ACK` frames, the video branch for low-latency
frames on the video channel, and the pong branch for the ping channel.
Returns the final state, the buffers passed to `b.write` in order, and the
frames offered to the video channel. -/
def packetReceiverFrame (st : BebopState) (frame : NetworkFrame) :
    Except GoPanic (BebopState × List (List Nat) × List (List Nat)) := do
  if frame.Type' = ARCOMMANDS_ID_ARDRONE3_PILOTINGSTATE_CMD_POSITIONCHANGED
      ∧ frame.Data.len ≠ 0 then
    let _cmdProject ← frame.Data.get 0
    let cmdClass ← frame.Data.get 1
    let c2 ← frame.Data.get 2
    let c3 ← frame.Data.get 3
    let cmdRemaining ← frame.Data.slice 4 frame.Data.len
    if cmdClass = 4 ∧ c2 + c3 = 12 then do
      let _ ← cmdRemaining.slice 0 8
      let _ ← cmdRemaining.slice 8 16
      let _ ← cmdRemaining.slice 16 24
      let _ ← cmdRemaining.slice 24 28
      let _ ← cmdRemaining.slice 28 32
      let _ ← cmdRemaining.slice 32 36
      pure ()
    else pure ()
  else pure ()
  let p1 : BebopState × List (List Nat) :=
    if frame.Type' = ARNETWORKAL_FRAME_TYPE_DATA_WITH_ACK then
      let r := createAck st.seq frame
      ({ st with seq := r.2 }, [r.1])
    else (st, [])
  let p2 ←
    (if frame.Type' = ARNETWORKAL_FRAME_TYPE_DATA_LOW_LATENCY
        ∧ frame.ID = BD_NET_DC_VIDEO_DATA_ID then do
      let arf ← NewARStreamFrame frame.Data
      let r ← createARStreamACKBytes p1.1.seq p1.1.tmp arf
      pure (({ seq := r.1, tmp := r.2.1 } : BebopState),
            (match r.2.2.1 with | some e => [e] | none => []),
            [r.2.2.2])
    else pure (p1.1, [], []))
  let p3 : BebopState × List (List Nat) :=
    if frame.ID = ARNETWORK_MANAGER_INTERNAL_BUFFER_ID_PING then
      let r := createPong p2.1.seq frame
      ({ p2.1 with seq := r.2 }, [r.1])
    else (p2.1, [])
  .ok (p3.1, p1.2 ++ p2.2.2 ++ p3.2, p2.2.1)

/-- `packetReceiver` from client.go on the raw datagram: decode, then
dispatch. -/
def packetReceiver (st : BebopState) (buf : GoSlice) :
    Except GoPanic (BebopState × List (List Nat) × List (List Nat)) := do
  let frame ← NewNetworkFrame buf
  packetReceiverFrame st frame

/-! ## Helper lemmas -/

/-- The value `seqNext` hands out: previous stored value (0 when the key is
fresh) plus one, modulo 256. -/
theorem seqNext_fst (m : SeqMap) (c : Nat) :
    (seqNext m c).1 = ((m c).getD 0 + 1) % 256 := by
  unfold seqNext
  cases h : m c <;> simp [h] <;> omega

/-- How `seqNext` updates the map at each key. -/
theorem seqNext_snd_apply (m : SeqMap) (c k : Nat) :
    (seqNext m c).2 k = if k = c then some (((m c).getD 0 + 1) % 256) else m k := by
  unfold seqNext
  cases h : m c <;> by_cases hk : k = c <;> simp [h, hk] <;> omega

/-- The stored counter after a list of calls: untouched when the id was
never called, and otherwise the running count modulo 256. -/
theorem runSeq_getD (calls : List Nat) (m : SeqMap) (id : Nat) :
    ((runSeq m calls) id).getD 0 =
      if calls.count id = 0 then (m id).getD 0
      else ((m id).getD 0 + calls.count id) % 256 := by
  induction calls generalizing m with
  | nil => simp [runSeq]
  | cons c cs ih =>
    have hstep : ((seqNext m c).2 id).getD 0 =
        if id = c then ((m id).getD 0 + 1) % 256 else (m id).getD 0 := by
      rw [seqNext_snd_apply]
      by_cases hk : id = c <;> simp [hk]
    by_cases hk : id = c
    · subst hk
      rw [runSeq, ih, hstep]
      simp [List.count_cons]
      by_cases hz : cs.count id = 0 <;> simp [hz] <;> omega
    · rw [runSeq, ih, hstep]
      simp [List.count_cons, hk]

/-- `readU32LE` inverts `u32LE` below `2 ^ 32`. -/
theorem readU32LE_u32LE (n : Nat) (h : n < 4294967296) :
    readU32LE (u32LE n) = n := by
  simp [readU32LE, u32LE]
  omega

/-- What the finalize phase leaves in `waitForIframe`: untouched when the
frame number is unchanged or nothing is in progress; cleared when the
finalized frame carried flags 1; otherwise or-ed with the plain-integer
loss test. -/
theorem arstreamFinalize_waitForIframe (t : TmpFrame) (f : ARStreamFrame) :
    (arstreamFinalize t f).1.waitForIframe =
      if f.FrameNumber = t.arstreamACK.FrameNumber then t.waitForIframe
      else if fragsLen t.fragments = 0 then t.waitForIframe
      else if t.frameFlags = 1 then false
      else t.waitForIframe || decide (f.FrameNumber ≠ t.arstreamACK.FrameNumber + 1) := by
  unfold arstreamFinalize
  by_cases h1 : f.FrameNumber = t.arstreamACK.FrameNumber
  · simp [h1]
  · by_cases h2 : 0 < fragsLen t.fragments
    · have h2' : ¬ fragsLen t.fragments = 0 := by omega
      by_cases h3 : t.frameFlags = 1
      · simp [h1, h2, h2', h3]
      · by_cases h4 : f.FrameNumber = t.arstreamACK.FrameNumber + 1
        · cases hwv : t.waitForIframe <;> simp [h1, h2, h2', h3, h4, hwv]
        · simp [h1, h2, h2', h3, h4]
    · have h2' : fragsLen t.fragments = 0 := by omega
      simp [h1, h2, h2']

/-- The finalize phase can only offer a frame when the frame number changed
with a frame in progress. -/
theorem arstreamFinalize_emit_shape (t : TmpFrame) (f : ARStreamFrame) (e : List Nat)
    (he : (arstreamFinalize t f).2 = some e) :
    f.FrameNumber ≠ t.arstreamACK.FrameNumber ∧ 0 < fragsLen t.fragments := by
  by_cases h1 : f.FrameNumber = t.arstreamACK.FrameNumber
  · unfold arstreamFinalize at he
    simp [h1] at he
  · by_cases h2 : 0 < fragsLen t.fragments
    · exact ⟨h1, h2⟩
    · unfold arstreamFinalize at he
      simp [h1, h2] at he

/-- While `waitForIframe` is set, the finalize phase can only offer a frame
when the in-progress frame carried flags 1. -/
theorem arstreamFinalize_emit_key (t : TmpFrame) (f : ARStreamFrame) (e : List Nat)
    (hw : t.waitForIframe = true) (he : (arstreamFinalize t f).2 = some e) :
    t.frameFlags = 1 := by
  by_contra h3
  obtain ⟨h1, h2⟩ := arstreamFinalize_emit_shape t f e he
  unfold arstreamFinalize at he
  have hw1 : (if f.FrameNumber ≠ t.arstreamACK.FrameNumber + 1 then true
      else t.waitForIframe) = true := by
    split <;> simp [hw]
  simp [h1, h2, h3, hw1] at he

/-- A successful `createARStreamACK` step preserves the finalize phase's
`waitForIframe` and offers exactly the finalize phase's frame. -/
theorem createARStreamACK_ok_parts (t : TmpFrame) (f : ARStreamFrame) (t2 : TmpFrame)
    (e : Option (List Nat)) (a : ARStreamACK)
    (hok : createARStreamACK t f = .ok (t2, e, a)) :
    t2.waitForIframe = (arstreamFinalize t f).1.waitForIframe
    ∧ e = (arstreamFinalize t f).2 := by
  unfold createARStreamACK at hok
  cases hm : (arstreamFinalize t f).1.fragments with
  | none => rw [hm] at hok; simp at hok
  | some frags =>
    rw [hm] at hok
    simp only [Except.ok.injEq, Prod.mk.injEq] at hok
    obtain ⟨ht2, he, _⟩ := hok
    refine ⟨?_, he.symm⟩
    rw [← ht2]

/-- Decoding a well-formed header followed by its payload, when the buffer
is exactly the encoded frame. -/
theorem decode_enc (b0 b1 b2 : Nat) (payload : List Nat)
    (hlt : payload.length + 7 < 4294967296) :
    NewNetworkFrame ⟨b0 :: b1 :: b2 :: (u32LE (payload.length + 7) ++ payload),
        payload.length + 7⟩
      = .ok { Type' := b0, ID := b1, Seq := b2, Size := payload.length + 7,
              Data := ⟨payload, payload.length⟩ } := by
  have c0 : 0 < payload.length + 7 := by omega
  have c1 : 1 < payload.length + 7 := by omega
  have c2 : 2 < payload.length + 7 := by omega
  have h7 : 7 ≤ payload.length + 7 := by omega
  have g0 : (b0 :: b1 :: b2 :: (u32LE (payload.length + 7) ++ payload)).getD 0 0 = b0 := rfl
  have g1 : (b0 :: b1 :: b2 :: (u32LE (payload.length + 7) ++ payload)).getD 1 0 = b1 := rfl
  have g2 : (b0 :: b1 :: b2 :: (u32LE (payload.length + 7) ++ payload)).getD 2 0 = b2 := rfl
  have hL : (b0 :: b1 :: b2 :: (u32LE (payload.length + 7) ++ payload)).length
      = payload.length + 7 := by
    simp [u32LE]
  have htake : List.take 4 (List.drop 3 (b0 :: b1 :: b2 ::
      (u32LE (payload.length + 7) ++ payload))) = u32LE (payload.length + 7) := rfl
  have hread := readU32LE_u32LE (payload.length + 7) hlt
  have hdrop7 : List.drop 7 (b0 :: b1 :: b2 :: (u32LE (payload.length + 7) ++ payload))
      = payload := rfl
  have hsub : payload.length + 7 - 7 = payload.length := by omega
  simp only [NewNetworkFrame, GoSlice.get, GoSlice.slice, GoSlice.toList, c0, c1, c2,
    if_true, g0, g1, g2, hL, htake, hread, hdrop7, hsub, h7, bind, Except.bind,
    le_refl, and_self, Nat.reduceLeDiff, and_true, true_and]

/-! ## Claim theorems -/

/-- Claim C5: encoding writes `type(1) + id(1) + seq(1) + length(4,
little-endian, = 7 + payload length) + payload`, and decoding that buffer
reproduces the type, channel id, sequence number and payload exactly, for
any payload whose size fits the `uint32` length field. -/
theorem claim5_codec_roundtrip (m : SeqMap) (payload : List Nat) (ft id : Nat)
    (hft : ft < 256) (hid : id < 256) (hlen : payload.length + 7 < 4294967296) :
    (networkFrameGenerator m payload ft id).1
      = ft :: id :: (seqNext m id).1 :: (u32LE (payload.length + 7) ++ payload)
    ∧ NewNetworkFrame ⟨(networkFrameGenerator m payload ft id).1,
        ((networkFrameGenerator m payload ft id).1).length⟩
      = .ok { Type' := ft, ID := id, Seq := (seqNext m id).1,
              Size := payload.length + 7, Data := ⟨payload, payload.length⟩ } := by
  have henc : (networkFrameGenerator m payload ft id).1
      = ft :: id :: (seqNext m id).1 :: (u32LE (payload.length + 7) ++ payload) := rfl
  have hLen : ((networkFrameGenerator m payload ft id).1).length = payload.length + 7 := by
    rw [henc]
    simp [u32LE]
  refine ⟨henc, ?_⟩
  rw [hLen, henc]
  exact decode_enc ft id (seqNext m id).1 payload hlen

/-- Witness for claim C5 at frame type 2, channel 10, payload `[9, 8]` and
the fresh sequence map. -/
theorem claim5_codec_roundtrip_witness :
    ((2 : Nat) < 256 ∧ (10 : Nat) < 256
      ∧ ([9, 8] : List Nat).length + 7 < 4294967296)
    ∧ ((networkFrameGenerator emptySeqMap [9, 8] 2 10).1
        = 2 :: 10 :: (seqNext emptySeqMap 10).1
            :: (u32LE (([9, 8] : List Nat).length + 7) ++ [9, 8])
       ∧ NewNetworkFrame ⟨(networkFrameGenerator emptySeqMap [9, 8] 2 10).1,
           ((networkFrameGenerator emptySeqMap [9, 8] 2 10).1).length⟩
         = .ok { Type' := 2, ID := 10, Seq := (seqNext emptySeqMap 10).1,
                 Size := ([9, 8] : List Nat).length + 7,
                 Data := ⟨[9, 8], ([9, 8] : List Nat).length⟩ }) :=
  ⟨⟨by norm_num, by norm_num, by norm_num⟩,
   claim5_codec_roundtrip emptySeqMap [9, 8] 2 10 (by norm_num) (by norm_num)
     (by norm_num)⟩

/-- Claim C1: the claim says that when any declared fragment index
`0 .. fragmentsPerFrame - 1` is missing at finalize, no frame is emitted.
The code instead checks completeness only over indices
`0 .. len(fragments) - 1` and never reads `FragmentsPerFrame`: here frame 1
declares 3 fragments per frame, only indices 0 and 1 arrive, and the
finalize triggered by frame 2 still emits the truncated concatenation
`[65, 66, 67, 68]`. -/
theorem claim1_truncated_frame_emitted :
    runEmits initTmpFrame
        [⟨1, 0, 0, 3, [65, 66]⟩, ⟨1, 0, 1, 3, [67, 68]⟩, ⟨2, 0, 0, 1, [69]⟩]
      = .ok [[65, 66, 67, 68]]
    ∧ ([⟨1, 0, 0, 3, [65, 66]⟩, ⟨1, 0, 1, 3, [67, 68]⟩] : List ARStreamFrame).all
        (fun f => f.FragmentsPerFrame == 3 && f.FragmentNumber != 2) = true :=
  ⟨rfl, rfl⟩

/-- Claim C2: the claim says the ack bitmap is reset to zero whenever the
in-progress frame number changes.  The code never clears
`LowPacketsAck`/`HighPacketsAck`: after a fragment of frame 1 at index 0
and a fragment of frame 2 at index 1, the ack emitted for frame 2 has
`LowPacketsAck = 3` (bits 0 and 1), although only index 1 was received for
frame 2 — bit 0 is carried over from frame 1. -/
theorem claim2_ack_bitmap_not_reset :
    runAcks initTmpFrame [⟨1, 0, 0, 1, [170]⟩, ⟨2, 0, 1, 1, [187]⟩]
      = .ok [⟨1, 0, 1⟩, ⟨2, 0, 3⟩]
    ∧ Nat.testBit 3 0 = true :=
  ⟨rfl, rfl⟩

/-- Claim C6: the claim says decoding a buffer shorter than 7 bytes, or one
whose declared length exceeds the bytes received, fails with a
`MalformedFrame` error without panicking.  The code has no such error: a
2-byte buffer panics with index out of range, and a 7-byte datagram
declaring length 100 inside a larger backing array (the situation of
`packetReceiver`, whose receive buffer has capacity 40960) is decoded
without any failure, its `Data` silently padded with 93 zero bytes that
were never received. -/
theorem claim6_decode_no_validation :
    NewNetworkFrame ⟨[4, 5], 2⟩ = .error .indexOutOfRange
    ∧ NewNetworkFrame ⟨[2, 11, 1, 100, 0, 0, 0] ++ List.replicate 93 0, 7⟩
      = .ok { Type' := 2, ID := 11, Seq := 1, Size := 100,
              Data := ⟨List.replicate 93 0, 93⟩ } :=
  ⟨rfl, rfl⟩

/-- Claim C10: after `New()` the fragment map is nil and is only allocated
inside the frame-number-change branch, so the very first fragment with
frame number 0 (the initial in-progress frame number) reaches the map
write with a nil map and panics; a first fragment with any other frame
number takes the change branch, which allocates the map first. -/
theorem claim10_first_fragment_nil_map_panic :
    createARStreamACK initTmpFrame ⟨0, 0, 0, 1, [9]⟩ = .error .nilMapWrite
    ∧ initTmpFrame.arstreamACK.FrameNumber = 0
    ∧ createARStreamACK initTmpFrame ⟨1, 0, 0, 1, [9]⟩
      = .ok (⟨⟨1, 0, 1⟩, some [(0, [9])], [], false, 0⟩, none, ⟨1, 0, 1⟩) :=
  ⟨rfl, rfl, rfl⟩

/-- Claim C7: after any interleaving of calls to the per-channel sequence
allocator starting from the fresh map, the next call for a channel id
returns one more than the number of calls already made on that id, modulo
256 — so a fresh id yields 1, 2, …, 255, 0, 1, … and ids never share
state. -/
theorem claim7_sequence_allocator (calls : List Nat) (id : Nat) :
    (seqNext (runSeq emptySeqMap calls) id).1 = (calls.count id + 1) % 256 := by
  rw [seqNext_fst, runSeq_getD]
  by_cases hz : calls.count id = 0 <;> simp [hz, emptySeqMap] <;> omega

/-- Claim C9: each directional setter clamps its argument to `[0, 100]`
(`validatePitch` is exactly the clamp to that interval), applies the
directional sign, sets the flag to 1 and writes only its own axis; the
initial command state is all zeros, `Forward 150` yields pitch 100 with
flag 1, and `Stop` resets every axis and the flag to zero. -/
theorem claim9_command_setters :
    initPcmd = { Flag := 0, Roll := 0, Pitch := 0, Yaw := 0, Gaz := 0, Psi := 0 }
    ∧ (∀ v : Int, validatePitch v = max 0 (min 100 v))
    ∧ (∀ (p : Pcmd) (v : Int), Up p v = { p with Flag := 1, Gaz := validatePitch v })
    ∧ (∀ (p : Pcmd) (v : Int), Down p v = { p with Flag := 1, Gaz := -validatePitch v })
    ∧ (∀ (p : Pcmd) (v : Int), Forward p v = { p with Flag := 1, Pitch := validatePitch v })
    ∧ (∀ (p : Pcmd) (v : Int), Backward p v = { p with Flag := 1, Pitch := -validatePitch v })
    ∧ (∀ (p : Pcmd) (v : Int), Right p v = { p with Flag := 1, Roll := validatePitch v })
    ∧ (∀ (p : Pcmd) (v : Int), Left p v = { p with Flag := 1, Roll := -validatePitch v })
    ∧ (∀ (p : Pcmd) (v : Int), Clockwise p v = { p with Flag := 1, Yaw := validatePitch v })
    ∧ (∀ (p : Pcmd) (v : Int), CounterClockwise p v
        = { p with Flag := 1, Yaw := -validatePitch v })
    ∧ Forward initPcmd 150 = { initPcmd with Flag := 1, Pitch := 100 }
    ∧ (∀ p : Pcmd, Stop p = initPcmd) := by
  refine ⟨rfl, ?_, fun p v => rfl, fun p v => ?_, fun p v => rfl, fun p v => ?_,
    fun p v => rfl, fun p v => ?_, fun p v => rfl, fun p v => ?_, by decide, fun p => rfl⟩
  · intro v
    unfold validatePitch
    split <;> [skip; split] <;> omega
  · simp [Down, mul_neg_one]
  · simp [Backward, mul_neg_one]
  · simp [Left, mul_neg_one]
  · simp [CounterClockwise, mul_neg_one]

/-- Claim C3 counterexample: the claim says that once `waitForIframe` is
true no frame is emitted until a key frame arrives and is complete, and
that the emission of that complete key frame clears the flag.  In this run
frame 1 is in progress, frame 3 skips frame 2 (`waitForIframe` becomes
true), frame 4 carries the key flag but only 1 of its declared 2 fragments
ever arrives; finalizing it (at the first fragment of frame 5) clears
`waitForIframe` and emits the truncated key frame `[204]` — a frame is
emitted although no complete key frame ever arrived, and the flag is
cleared by finalize, not by the emission of a complete key frame. -/
theorem claim3_counterexample :
    runFinal initTmpFrame
        [⟨1, 0, 0, 2, [170]⟩, ⟨3, 0, 0, 1, [187]⟩, ⟨4, 1, 0, 2, [204]⟩]
      = .ok ⟨⟨4, 0, 1⟩, some [(0, [204])], [], true, 1⟩
    ∧ runEmits initTmpFrame
        [⟨1, 0, 0, 2, [170]⟩, ⟨3, 0, 0, 1, [187]⟩, ⟨4, 1, 0, 2, [204]⟩]
      = .ok []
    ∧ runEmits initTmpFrame
        [⟨1, 0, 0, 2, [170]⟩, ⟨3, 0, 0, 1, [187]⟩, ⟨4, 1, 0, 2, [204]⟩,
         ⟨5, 0, 0, 1, [221]⟩]
      = .ok [[204]]
    ∧ runFinal initTmpFrame
        [⟨1, 0, 0, 2, [170]⟩, ⟨3, 0, 0, 1, [187]⟩, ⟨4, 1, 0, 2, [204]⟩,
         ⟨5, 0, 0, 1, [221]⟩]
      = .ok ⟨⟨5, 0, 1⟩, some [(0, [221])], [], false, 0⟩ :=
  ⟨rfl, rfl, rfl, rfl⟩

/-- Claim C3 (amended): once `waitForIframe` is true, a step can emit a
frame only while finalizing an in-progress frame whose `frameFlags` equal
1 (the key-frame test is equality with 1, and completeness is checked only
over the populated fragment count, not the declared one), and that
emission leaves `waitForIframe` false; moreover any finalize of a flags-1
in-progress frame clears `waitForIframe`, whether or not the key frame
was complete or anything was emitted. -/
theorem claim3_amended (t : TmpFrame) (f : ARStreamFrame) (t2 : TmpFrame)
    (e : Option (List Nat)) (a : ARStreamACK)
    (hw : t.waitForIframe = true)
    (hok : createARStreamACK t f = .ok (t2, e, a)) :
    (∀ x, e = some x → t.frameFlags = 1 ∧ t2.waitForIframe = false)
    ∧ (f.FrameNumber ≠ t.arstreamACK.FrameNumber → 0 < fragsLen t.fragments →
        t.frameFlags = 1 → t2.waitForIframe = false) := by
  obtain ⟨hwf, hemit⟩ := createARStreamACK_ok_parts t f t2 e a hok
  constructor
  · intro x hx
    have he2 : (arstreamFinalize t f).2 = some x := by rw [← hemit, hx]
    have hkey : t.frameFlags = 1 := arstreamFinalize_emit_key t f x hw he2
    obtain ⟨h1, h2⟩ := arstreamFinalize_emit_shape t f x he2
    have h2' : ¬ fragsLen t.fragments = 0 := by omega
    refine ⟨hkey, ?_⟩
    rw [hwf, arstreamFinalize_waitForIframe]
    simp [h1, h2', hkey]
  · intro hchg hlen hkey
    have h2' : ¬ fragsLen t.fragments = 0 := by omega
    rw [hwf, arstreamFinalize_waitForIframe]
    simp [hchg, h2', hkey]

/-- Witness for claim C3 (amended): a state waiting for an iframe whose
in-progress frame carries the key flag but is incomplete (fragments 0 and
2 of declared 3, so the completeness scan aborts at index 1); finalizing
it at frame 4 emits nothing, yet clears `waitForIframe`. -/
theorem claim3_amended_witness :
    ((⟨⟨3, 0, 1⟩, some [(0, [5]), (2, [7])], [], true, 1⟩ : TmpFrame).waitForIframe = true)
    ∧ ((∀ x, (none : Option (List Nat)) = some x →
          (⟨⟨3, 0, 1⟩, some [(0, [5]), (2, [7])], [], true, 1⟩ : TmpFrame).frameFlags = 1
          ∧ (⟨⟨4, 0, 3⟩, some [(1, [6])], [], false, 0⟩ : TmpFrame).waitForIframe = false)
       ∧ ((4 : Nat) ≠ (⟨⟨3, 0, 1⟩, some [(0, [5]), (2, [7])], [], true, 1⟩ :
              TmpFrame).arstreamACK.FrameNumber →
          0 < fragsLen (⟨⟨3, 0, 1⟩, some [(0, [5]), (2, [7])], [], true, 1⟩ :
              TmpFrame).fragments →
          (⟨⟨3, 0, 1⟩, some [(0, [5]), (2, [7])], [], true, 1⟩ : TmpFrame).frameFlags = 1 →
          (⟨⟨4, 0, 3⟩, some [(1, [6])], [], false, 0⟩ : TmpFrame).waitForIframe = false)) :=
  ⟨rfl, claim3_amended ⟨⟨3, 0, 1⟩, some [(0, [5]), (2, [7])], [], true, 1⟩
    ⟨4, 0, 1, 3, [6]⟩ ⟨⟨4, 0, 3⟩, some [(1, [6])], [], false, 0⟩ none ⟨4, 0, 3⟩ rfl rfl⟩

/-- Claim C4 counterexample: the claim says the transition from frame 65535
to frame 0 is consecutive modulo 65536 and must not set `waitForIframe`.
The code compares against `previous + 1` without any modulus, so after a
fragment of frame 65535 a fragment of frame 0 sets `waitForIframe`,
although `0 = (65535 + 1) % 65536`. -/
theorem claim4_counterexample :
    runFinal initTmpFrame [⟨65535, 0, 0, 1, [1]⟩, ⟨0, 0, 0, 1, [2]⟩]
      = .ok ⟨⟨0, 0, 1⟩, some [(0, [2])], [], true, 0⟩
    ∧ (0 : Nat) = (65535 + 1) % 65536 :=
  ⟨rfl, rfl⟩

/-- Claim C4 (amended): at a frame-number change with a frame in progress,
the resulting `waitForIframe` is false when the finalized frame carried
flags 1, and otherwise is the old value or-ed with the loss test
`newFrameNumber ≠ previous + 1` taken over the plain integers — no modulo
65536, so the wraparound 65535 → 0 counts as loss. -/
theorem claim4_amended (t : TmpFrame) (f : ARStreamFrame) (t2 : TmpFrame)
    (e : Option (List Nat)) (a : ARStreamACK)
    (hchg : f.FrameNumber ≠ t.arstreamACK.FrameNumber)
    (hlen : 0 < fragsLen t.fragments)
    (hok : createARStreamACK t f = .ok (t2, e, a)) :
    t2.waitForIframe =
      if t.frameFlags = 1 then false
      else (t.waitForIframe || decide (f.FrameNumber ≠ t.arstreamACK.FrameNumber + 1)) := by
  obtain ⟨hwf, _⟩ := createARStreamACK_ok_parts t f t2 e a hok
  have h2' : ¬ fragsLen t.fragments = 0 := by omega
  rw [hwf, arstreamFinalize_waitForIframe]
  simp [hchg, h2']

/-- Claim C8: the claim says every inbound frame whose type requires
acknowledgment yields exactly one outbound ack frame.  Because the
published `PositionChanged` command id equals the data-with-ack frame
type (both 4), the debug block at the top of `packetReceiver` runs on
every ack-required frame with a non-empty payload and indexes
`frame.Data[2]`: an ack-required frame carrying a 2-byte payload panics
there, before `createAck` runs, so no ack is emitted and the reader
goroutine crashes.  An ack-required frame with an empty payload skips the
block and does yield exactly the one ack frame (type 1, channel
`11 + 128 = 139`, sequence 1, payload `[7]`). -/
theorem claim8_ack_responder :
    packetReceiverFrame initBebopState (⟨4, 7, 11, 8, ⟨[1, 2], 2⟩⟩ : NetworkFrame)
      = .error .indexOutOfRange
    ∧ (packetReceiverFrame initBebopState (⟨4, 7, 11, 8, ⟨[], 0⟩⟩ : NetworkFrame)).map
        (fun r => r.2)
      = .ok ([[1, 139, 1, 8, 0, 0, 0, 7]], []) :=
  ⟨rfl, rfl⟩

/-- Witness for claim C4 (amended): frame 5 in progress with flags 0, next
fragment carries frame 9: `waitForIframe` becomes true since 9 is not
5 + 1. -/
theorem claim4_amended_witness :
    ((9 : Nat) ≠ (⟨⟨5, 0, 1⟩, some [(0, [7])], [], false, 0⟩ : TmpFrame).arstreamACK.FrameNumber)
    ∧ 0 < fragsLen (⟨⟨5, 0, 1⟩, some [(0, [7])], [], false, 0⟩ : TmpFrame).fragments
    ∧ (⟨⟨9, 0, 1⟩, some [(0, [8])], [], true, 0⟩ : TmpFrame).waitForIframe =
        (if (⟨⟨5, 0, 1⟩, some [(0, [7])], [], false, 0⟩ : TmpFrame).frameFlags = 1 then false
         else ((⟨⟨5, 0, 1⟩, some [(0, [7])], [], false, 0⟩ : TmpFrame).waitForIframe
           || decide ((9 : Nat) ≠ (⟨⟨5, 0, 1⟩, some [(0, [7])], [], false, 0⟩ :
                TmpFrame).arstreamACK.FrameNumber + 1))) :=
  ⟨by decide, by decide,
   claim4_amended ⟨⟨5, 0, 1⟩, some [(0, [7])], [], false, 0⟩ ⟨9, 0, 0, 1, [8]⟩
     ⟨⟨9, 0, 1⟩, some [(0, [8])], [], true, 0⟩ none ⟨9, 0, 1⟩ (by decide) (by decide) rfl⟩

end Bebop
